import Mathlib

/-!
Shallow embedding of `src/7Finalzip/Source/MainCode.cpp` (an OpenGL scene
demo: GLFW main loop, camera callbacks, and the `SceneManager`
implementation).  Floating-point values are modelled as exact rationals;
the transcendental helpers of the C++ code (`cos`, `sin` composed with
`glm::radians`, and `glm::normalize`, whose results are irrational) are
passed in as abstract function parameters, so every statement quantifies
over them.  GL calls that only push uniforms or issue draws are recorded
as elements of an explicit operation trace.
-/

/-- Exact model of `glm::vec3` with rational components. -/
structure Vec3 where
  x : ℚ
  y : ℚ
  z : ℚ
deriving DecidableEq, Repr

namespace Vec3

/-- Componentwise addition, as `glm` vector `+`. -/
def add (a b : Vec3) : Vec3 := ⟨a.x + b.x, a.y + b.y, a.z + b.z⟩

/-- Componentwise subtraction, as `glm` vector `-`. -/
def sub (a b : Vec3) : Vec3 := ⟨a.x - b.x, a.y - b.y, a.z - b.z⟩

/-- Scalar multiplication `v * k`, as in `cameraFront * speed`. -/
def smul (a : Vec3) (k : ℚ) : Vec3 := ⟨a.x * k, a.y * k, a.z * k⟩

/-- Model of `glm::cross` for 3-vectors. -/
def cross (a b : Vec3) : Vec3 :=
  ⟨a.y * b.z - a.z * b.y, a.z * b.x - a.x * b.z, a.x * b.y - a.y * b.x⟩

end Vec3

/-- Model of `glm::clamp(x, lo, hi) = min(max(x, lo), hi)`. -/
def glmClamp (x lo hi : ℚ) : ℚ := min (max x lo) hi

/-!
Camera globals of `MainCode.cpp` (lines 31-49) gathered into one record.
`firstMouse`, `lastX`, `lastY`, `yaw`, `pitch` drive `mouse_callback`;
`movementSpeed` and `fov` drive `scroll_callback`; `cameraPos`,
`cameraFront`, `cameraUp` drive `processInput` and the view matrix.
-/

/-- Mutable camera/global state of the program. -/
structure CameraState where
  cameraPos : Vec3
  cameraFront : Vec3
  cameraUp : Vec3
  yaw : ℚ
  pitch : ℚ
  lastX : ℚ
  lastY : ℚ
  firstMouse : Bool
  movementSpeed : ℚ
  fov : ℚ
deriving DecidableEq, Repr

/-- Initial values of the camera globals (lines 31-46 of the source). -/
def initCameraState : CameraState :=
  { cameraPos := ⟨0, 2, 10⟩
    cameraFront := ⟨0, 0, -1⟩
    cameraUp := ⟨0, 1, 0⟩
    yaw := -90
    pitch := 0
    lastX := 400
    lastY := 300
    firstMouse := true
    movementSpeed := 4
    fov := 45 }

/-- Euler-angle look direction `(cos yaw * cos pitch, sin pitch,
sin yaw * cos pitch)` computed in `mouse_callback` lines 213-216.
`cosDeg`/`sinDeg` stand for `cos(glm::radians(.))` and
`sin(glm::radians(.))` applied to an angle in degrees. -/
def eulerDir (cosDeg sinDeg : ℚ → ℚ) (yaw pitch : ℚ) : Vec3 :=
  ⟨cosDeg yaw * cosDeg pitch, sinDeg pitch, sinDeg yaw * cosDeg pitch⟩

/-- Model of `mouse_callback` (lines 194-218).  `norm` stands for
`glm::normalize`. -/
def mouse_callback (cosDeg sinDeg : ℚ → ℚ) (norm : Vec3 → Vec3)
    (st : CameraState) (xpos ypos : ℚ) : CameraState :=
  let st :=
    if st.firstMouse then
      { st with lastX := xpos, lastY := ypos, firstMouse := false }
    else st
  let sensitivity : ℚ := 12 / 100
  let xoffset := (xpos - st.lastX) * sensitivity
  let yoffset := (st.lastY - ypos) * sensitivity
  let yaw := st.yaw + xoffset
  let pitch := st.pitch + yoffset
  let pitch := if pitch > 89 then 89 else pitch
  let pitch := if pitch < -89 then -89 else pitch
  let dir := eulerDir cosDeg sinDeg yaw pitch
  { st with
      lastX := xpos, lastY := ypos,
      yaw := yaw, pitch := pitch,
      cameraFront := norm dir }

/-- Model of `scroll_callback` (lines 220-227): the y offset bumps the
movement speed by `0.25` per tick (clamped to `[0.5, 10]`) and narrows the
field of view by one degree per tick (clamped to `[1, 45]`). -/
def scroll_callback (st : CameraState) (yoffset : ℚ) : CameraState :=
  { st with
      movementSpeed := glmClamp (st.movementSpeed + yoffset * (1 / 4)) (1 / 2) 10
      fov := glmClamp (st.fov - yoffset) 1 45 }

/-- Key state sampled by `processInput` via `glfwGetKey` (`true` =
`GLFW_PRESS`). -/
structure Keys where
  w : Bool
  s : Bool
  a : Bool
  d : Bool
  q : Bool
  e : Bool
deriving DecidableEq, Repr

/-- Movement part of `processInput` (lines 161-178): WASD/QE update of
`cameraPos` at `speed = movementSpeed * deltaTime`; `norm` stands for
`glm::normalize`. -/
def processInputMove (norm : Vec3 → Vec3) (keys : Keys) (deltaTime : ℚ)
    (st : CameraState) : CameraState :=
  let speed := st.movementSpeed * deltaTime
  let pos := st.cameraPos
  let pos := if keys.w then pos.add (st.cameraFront.smul speed) else pos
  let pos := if keys.s then pos.sub (st.cameraFront.smul speed) else pos
  let pos := if keys.a then
      pos.sub ((norm (st.cameraFront.cross st.cameraUp)).smul speed) else pos
  let pos := if keys.d then
      pos.add ((norm (st.cameraFront.cross st.cameraUp)).smul speed) else pos
  let pos := if keys.q then { pos with y := pos.y + speed } else pos
  let pos := if keys.e then { pos with y := pos.y - speed } else pos
  { st with cameraPos := pos }

/-- Projection-toggle state of `processInput` lines 180-191: the global
`useOrtho` and the `static bool pKeyPressed` edge-detector flag. -/
structure PToggleState where
  useOrtho : Bool
  pKeyPressed : Bool
deriving DecidableEq, Repr

/-- The P-key block of `processInput` (lines 180-191) for one frame;
`pDown` is `glfwGetKey(window, GLFW_KEY_P) == GLFW_PRESS`. -/
def processInputP (st : PToggleState) (pDown : Bool) : PToggleState :=
  let st :=
    if pDown && !st.pKeyPressed then
      { useOrtho := !st.useOrtho, pKeyPressed := true }
    else st
  if !pDown then { st with pKeyPressed := false } else st

/-- Iterate the P-key block over a sequence of frames. -/
def runPToggle (st : PToggleState) (frames : List Bool) : PToggleState :=
  frames.foldl processInputP st

/-!
SceneManager model (second half of the source file).  The texture
registry `m_textureIDs[..]` together with its counter `m_loadedTextures`
is modelled as a list (every reader of the array iterates exactly over
the first `m_loadedTextures` entries, so the list of live entries is the
whole observable state).  `glGenTextures` is modelled by a fresh-name
counter `nextTextureID`.
-/

/-- One registered texture: `m_textureIDs[i].ID` and `.tag`. -/
structure TextureRecord where
  id : ℕ
  tag : String
deriving DecidableEq, Repr

/-- Model of the `OBJECT_MATERIAL` struct. -/
structure OBJECT_MATERIAL where
  ambientColor : Vec3
  ambientStrength : ℚ
  diffuseColor : Vec3
  specularColor : Vec3
  shininess : ℚ
  tag : String
deriving DecidableEq, Repr

/-- The mesh kinds the scene uses (`ShapeMeshes` load/draw pairs). -/
inductive MeshKind where
  | plane
  | cone
  | torus
  | box
deriving DecidableEq, BEq, Repr

/-- A decoded image as returned by `stbi_load`: `none` models a failed
decode (null pointer). -/
structure Image where
  width : ℕ
  height : ℕ
  channels : ℕ
deriving DecidableEq, Repr

/-- Observable state of a `SceneManager` object (plus the GL fresh-name
counter). -/
structure SceneState where
  textureIDs : List TextureRecord
  objectMaterials : List OBJECT_MATERIAL
  loadedMeshes : List MeshKind
  basicMeshesAllocated : Bool
  shaderAttached : Bool
  nextTextureID : ℕ
deriving DecidableEq, Repr

/-- State right after the `SceneManager` constructor: empty registries,
a live `ShapeMeshes` object and an attached shader manager. -/
def sceneManagerInit : SceneState :=
  { textureIDs := []
    objectMaterials := []
    loadedMeshes := []
    basicMeshesAllocated := true
    shaderAttached := true
    nextTextureID := 1 }

/-- Model of `SceneManager::CreateGLTexture` (lines 287-341).  `decoded`
is the result of `stbi_load` on the file.  On a null image the method
returns `false` untouched; otherwise it generates a texture name, and
only for 3- or 4-channel images registers `(ID, tag)` and bumps
`m_loadedTextures`; any other channel count returns `false` with the
registry unchanged (the generated GL name is leaked, which the model
reflects by the advanced counter). -/
def createGLTexture (st : SceneState) (decoded : Option Image)
    (tag : String) : Bool × SceneState :=
  match decoded with
  | none => (false, st)
  | some img =>
    let textureID := st.nextTextureID
    let st₁ := { st with nextTextureID := st.nextTextureID + 1 }
    if img.channels = 3 ∨ img.channels = 4 then
      (true, { st₁ with textureIDs := st₁.textureIDs ++ [⟨textureID, tag⟩] })
    else
      (false, st₁)

/-- Model of `SceneManager::DestroyGLTextures` (lines 363-370): deletes
every registered GL texture and resets `m_loadedTextures` to zero.  The
second component lists the GL names passed to `glDeleteTextures`. -/
def destroyGLTextures (st : SceneState) : SceneState × List ℕ :=
  ({ st with textureIDs := [] }, st.textureIDs.map (·.id))

/-- Model of the destructor `SceneManager::~SceneManager` (lines
272-277): it nulls the shader pointer and deletes the `ShapeMeshes`
object, and issues no `glDeleteTextures` call (second component). -/
def sceneManagerDestructor (st : SceneState) : SceneState × List ℕ :=
  ({ st with shaderAttached := false
             basicMeshesAllocated := false
             loadedMeshes := [] }, [])

/-- Model of `SceneManager::FindTextureID` (lines 377-385). -/
def findTextureID (st : SceneState) (tag : String) : ℤ :=
  match st.textureIDs.find? (fun r => r.tag == tag) with
  | some r => (r.id : ℤ)
  | none => -1

/-- Model of `SceneManager::FindTextureSlot` (lines 392-400). -/
def findTextureSlot (st : SceneState) (tag : String) : ℤ :=
  match st.textureIDs.findIdx? (fun r => r.tag == tag) with
  | some i => (i : ℤ)
  | none => -1

/-- Model of `SceneManager::FindMaterial` (lines 407-421), returning the
found material instead of writing through a reference. -/
def findMaterial (st : SceneState) (tag : String) : Option OBJECT_MATERIAL :=
  if st.objectMaterials.isEmpty then none
  else st.objectMaterials.find? (fun m => m.tag == tag)

/-- Shader-facing operations issued by `RenderScene`: model-matrix
uniform writes, texture selection, UV scale, and draw calls. -/
inductive RenderOp where
  | setModel (scaleXYZ : Vec3) (xDeg yDeg zDeg : ℚ) (positionXYZ : Vec3)
  | setTexture (tag : String) (slot : ℤ)
  | setUV (u v : ℚ)
  | drawMesh (kind : MeshKind)
deriving DecidableEq, BEq, Repr

/-- Model of `SceneManager::SetShaderTexture`: resolves the tag to a
texture slot via `FindTextureSlot` and selects it. -/
def setShaderTextureOp (st : SceneState) (tag : String) : RenderOp :=
  .setTexture tag (findTextureSlot st tag)


/-- The "gold" material pushed in `PrepareScene` (lines 524-531). -/
def goldMaterial : OBJECT_MATERIAL :=
  { ambientColor := ⟨0.2, 0.2, 0.1⟩, ambientStrength := 0.4
    diffuseColor := ⟨0.3, 0.3, 0.2⟩, specularColor := ⟨0.6, 0.5, 0.4⟩
    shininess := 22, tag := "gold" }

/-- The "cement" material pushed in `PrepareScene` (lines 533-540). -/
def cementMaterial : OBJECT_MATERIAL :=
  { ambientColor := ⟨0.2, 0.2, 0.2⟩, ambientStrength := 0.2
    diffuseColor := ⟨0.5, 0.5, 0.5⟩, specularColor := ⟨0.4, 0.4, 0.4⟩
    shininess := 0.5, tag := "cement" }

/-- The "wood" material pushed in `PrepareScene` (lines 542-549). -/
def woodMaterial : OBJECT_MATERIAL :=
  { ambientColor := ⟨0.4, 0.3, 0.1⟩, ambientStrength := 0.2
    diffuseColor := ⟨0.3, 0.2, 0.1⟩, specularColor := ⟨0.1, 0.1, 0.1⟩
    shininess := 0.3, tag := "wood" }

/-- The "tile" material pushed in `PrepareScene` (lines 551-558). -/
def tileMaterial : OBJECT_MATERIAL :=
  { ambientColor := ⟨0.2, 0.3, 0.4⟩, ambientStrength := 0.3
    diffuseColor := ⟨0.3, 0.2, 0.1⟩, specularColor := ⟨0.4, 0.5, 0.6⟩
    shininess := 25, tag := "tile" }

/-- The "glass" material pushed in `PrepareScene` (lines 560-567). -/
def glassMaterial : OBJECT_MATERIAL :=
  { ambientColor := ⟨0.4, 0.4, 0.4⟩, ambientStrength := 0.3
    diffuseColor := ⟨0.3, 0.3, 0.3⟩, specularColor := ⟨0.6, 0.6, 0.6⟩
    shininess := 85, tag := "glass" }

/-- The "clay" material pushed in `PrepareScene` (lines 569-576). -/
def clayMaterial : OBJECT_MATERIAL :=
  { ambientColor := ⟨0.2, 0.2, 0.3⟩, ambientStrength := 0.3
    diffuseColor := ⟨0.4, 0.4, 0.5⟩, specularColor := ⟨0.2, 0.2, 0.4⟩
    shininess := 0.5, tag := "clay" }

/-- Model of `SceneManager::PrepareScene` (lines 519-635): pushes the six
materials, loads the plane, cone, torus and box meshes once each, and
loads the three textures under tags "floor", "cone" and "box".  The
`img*` arguments are the `stbi_load` results for the three image files;
the light-uniform writes and `BindGLTextures` touch no `SceneManager`
state and are omitted from the state transition. -/
def prepareScene (imgFloor imgCone imgBox : Option Image)
    (st : SceneState) : SceneState :=
  let st := { st with objectMaterials := st.objectMaterials ++
      [goldMaterial, cementMaterial, woodMaterial, tileMaterial,
       glassMaterial, clayMaterial] }
  let st := { st with loadedMeshes := st.loadedMeshes ++
      [.plane, .cone, .torus, .box] }
  let st := (createGLTexture st imgFloor "floor").2
  let st := (createGLTexture st imgCone "cone").2
  let st := (createGLTexture st imgBox "box").2
  st

/-- Model of `SceneManager::RenderScene` (lines 643-738): the method
body is a straight-line sequence of uniform writes and draw calls; its
translation returns the (unchanged) `SceneManager` state together with
the issued operation trace, in source order. -/
def renderScene (st : SceneState) : SceneState × List RenderOp :=
  (st,
    [ -- PLANE: floor with brick texture
     .setModel ⟨20, 1, 20⟩ 0 0 0 ⟨0, 0, 0⟩,
     setShaderTextureOp st "floor",
     .setUV 4 4,
     .drawMesh .plane,
     -- CENTER CONE
     .setModel ⟨1, 2, 1⟩ 0 0 0 ⟨0, 1, 3⟩,
     setShaderTextureOp st "cone",
     .drawMesh .cone,
     -- Torus around center cone
     .setModel ⟨1.6, 1.6, 1.6⟩ 90 0 0 ⟨0, 1, 3⟩,
     setShaderTextureOp st "cone",
     .drawMesh .torus,
     -- FRONT ROW, large cones, left and right
     .setModel ⟨1.6, 2, 1.6⟩ 0 0 0 ⟨-6, 0.5, 8⟩,
     setShaderTextureOp st "cone",
     .drawMesh .cone,
     .setModel ⟨1.6, 2, 1.6⟩ 0 0 0 ⟨6, 0.5, 8⟩,
     setShaderTextureOp st "cone",
     .drawMesh .cone,
     -- SECOND ROW, medium cones
     .setModel ⟨1.2, 2, 1.2⟩ 0 0 0 ⟨-4, 0.5, 5⟩,
     setShaderTextureOp st "cone",
     .drawMesh .cone,
     .setModel ⟨1.2, 2, 1.2⟩ 0 0 0 ⟨4, 0.5, 5⟩,
     setShaderTextureOp st "cone",
     .drawMesh .cone,
     -- THIRD ROW, small cones
     .setModel ⟨0.9, 2, 0.9⟩ 0 0 0 ⟨-2, 0.5, -3⟩,
     setShaderTextureOp st "cone",
     .drawMesh .cone,
     .setModel ⟨0.9, 2, 0.9⟩ 0 0 0 ⟨2, 0.5, -3⟩,
     setShaderTextureOp st "cone",
     .drawMesh .cone,
     -- BOX
     .setModel ⟨0.3, 2, 3.5⟩ 0 0 0 ⟨-5, 0.6, 6.5⟩,
     setShaderTextureOp st "box",
     .drawMesh .box])

/-- Number of draw calls for a given mesh kind in a trace. -/
def countDraws (k : MeshKind) (ops : List RenderOp) : ℕ :=
  ops.countP (fun op => decide (op = RenderOp.drawMesh k))

/-- Pair each draw call of a trace with the texture selection and UV
scale in effect when it is issued (the shader's current state, threaded
from left to right). -/
def drawsAnnotated : List RenderOp → Option (String × ℤ) → Option (ℚ × ℚ) →
    List (MeshKind × Option (String × ℤ) × Option (ℚ × ℚ))
  | [], _, _ => []
  | .setModel _ _ _ _ _ :: rest, t, u => drawsAnnotated rest t u
  | .setTexture tag slot :: rest, _, u =>
      drawsAnnotated rest (some (tag, slot)) u
  | .setUV a b :: rest, t, _ => drawsAnnotated rest t (some (a, b))
  | .drawMesh k :: rest, t, u => (k, t, u) :: drawsAnnotated rest t u


/-!
GLM matrix layer (`glm::translate`, `glm::rotate`, `glm::scale`,
`glm::ortho`, `glm::perspective`) used by `SetTransformations` and the
projection selection of the main loop.  GLM stores matrices column-major
as `m[col][row]`; here each matrix is written in ordinary mathematical
row/column convention (the transpose of the GLM storage), which is the
convention under which `M *ᵥ homogeneous v` is how GLSL applies
`model * vec4(pos, 1)`.  Cosine/sine (and, for the perspective matrix,
`tan(fov/2)`) of angles are irrational, so they enter as explicit
rational parameters that every theorem quantifies over.
-/

/-- Shorthand for a rational 4x4 matrix. -/
abbrev Mat4 := Matrix (Fin 4) (Fin 4) ℚ

/-- Homogeneous coordinates of a 3D point (`vec4(v, 1)`). -/
def hom (v : Vec3) : Fin 4 → ℚ := ![v.x, v.y, v.z, 1]

/-- Model of `glm::translate(p)`. -/
def glmTranslate (p : Vec3) : Mat4 :=
  Matrix.of ![![1, 0, 0, p.x], ![0, 1, 0, p.y], ![0, 0, 1, p.z], ![0, 0, 0, 1]]

/-- Model of `glm::scale(s)`. -/
def glmScale (s : Vec3) : Mat4 :=
  Matrix.of ![![s.x, 0, 0, 0], ![0, s.y, 0, 0], ![0, 0, s.z, 0], ![0, 0, 0, 1]]

/-- Model of `glm::rotate(angle, axis)` for a unit axis, with
`c = cos angle`, `sn = sin angle` (GLM normalizes the axis first; the
program only passes the unit coordinate axes, which normalization fixes).
The entries are the transpose of GLM's column-major `Rotate` matrix,
i.e. the standard Rodrigues rotation matrix. -/
def glmRotate (c sn : ℚ) (a : Vec3) : Mat4 :=
  Matrix.of
    ![![c + (1 - c) * a.x * a.x, (1 - c) * a.y * a.x - sn * a.z,
        (1 - c) * a.z * a.x + sn * a.y, 0],
      ![(1 - c) * a.x * a.y + sn * a.z, c + (1 - c) * a.y * a.y,
        (1 - c) * a.z * a.y - sn * a.x, 0],
      ![(1 - c) * a.x * a.z - sn * a.y, (1 - c) * a.y * a.z + sn * a.x,
        c + (1 - c) * a.z * a.z, 0],
      ![0, 0, 0, 1]]

/-- Model of `SceneManager::SetTransformations` (lines 428-443): the
model matrix pushed into the shader is
`translate(position) * rotateX * rotateY * rotateZ * scale(scaleXYZ)`.
`cX, sX` abbreviate `cos(radians(XrotationDegrees))` and
`sin(radians(XrotationDegrees))`, and likewise for Y and Z. -/
def setTransformations (cX sX cY sY cZ sZ : ℚ)
    (scaleXYZ positionXYZ : Vec3) : Mat4 :=
  glmTranslate positionXYZ *
    glmRotate cX sX ⟨1, 0, 0⟩ *
    glmRotate cY sY ⟨0, 1, 0⟩ *
    glmRotate cZ sZ ⟨0, 0, 1⟩ *
    glmScale scaleXYZ

/-- Action of a 4x4 matrix on a 3D point through homogeneous
coordinates, dropping the `w` component (for the affine matrices here
`w` stays `1`). -/
def applyToPoint (M : Mat4) (v : Vec3) : Vec3 :=
  ⟨M.mulVec (hom v) 0, M.mulVec (hom v) 1, M.mulVec (hom v) 2⟩

/-- Model of `glm::ortho(l, r, b, t, zNear, zFar)` (row/column
convention, transpose of GLM's column-major storage). -/
def glmOrtho (l r b t zNear zFar : ℚ) : Mat4 :=
  Matrix.of
    ![![2 / (r - l), 0, 0, -(r + l) / (r - l)],
      ![0, 2 / (t - b), 0, -(t + b) / (t - b)],
      ![0, 0, -2 / (zFar - zNear), -(zFar + zNear) / (zFar - zNear)],
      ![0, 0, 0, 1]]

/-- Model of `glm::perspective(fovy, aspect, zNear, zFar)`;
`tanHalfFovy` stands for the irrational `tan(fovy / 2)`. -/
def glmPerspective (tanHalfFovy aspect zNear zFar : ℚ) : Mat4 :=
  Matrix.of
    ![![1 / (aspect * tanHalfFovy), 0, 0, 0],
      ![0, 1 / tanHalfFovy, 0, 0],
      ![0, 0, -(zFar + zNear) / (zFar - zNear), -(2 * zFar * zNear) / (zFar - zNear)],
      ![0, 0, -1, 0]]

/-- Projection matrix computed by one main-loop frame (lines 99-112):
orthographic when `useOrtho` holds, perspective from the current `fov`
otherwise.  `tanHalfFov` stands for `tan(radians(fov) / 2)`. -/
def frameProjection (useOrtho : Bool) (tanHalfFov : ℚ) : Mat4 :=
  if useOrtho then
    let aspect : ℚ := 800 / 600
    let orthoSize : ℚ := 10
    glmOrtho (-orthoSize * aspect) (orthoSize * aspect) (-orthoSize)
      orthoSize 0.1 100
  else
    glmPerspective tanHalfFov (800 / 600) 0.1 100


/-!
Theorems.  Helper lemmas first: the action of each GLM matrix factor on
a homogeneous point.
-/

theorem mulVec_glmScale (s v : Vec3) :
    (glmScale s).mulVec (hom v) = hom ⟨s.x * v.x, s.y * v.y, s.z * v.z⟩ := by
  funext i
  fin_cases i <;>
    simp [glmScale, hom, Matrix.mulVec, Matrix.dotProduct, Fin.sum_univ_four]

theorem mulVec_glmTranslate (p v : Vec3) :
    (glmTranslate p).mulVec (hom v) =
      hom ⟨p.x + v.x, p.y + v.y, p.z + v.z⟩ := by
  funext i
  fin_cases i <;>
    simp [glmTranslate, hom, Matrix.mulVec, Matrix.dotProduct,
      Fin.sum_univ_four] <;> ring

theorem mulVec_glmRotateX (c sn : ℚ) (v : Vec3) :
    (glmRotate c sn ⟨1, 0, 0⟩).mulVec (hom v) =
      hom ⟨v.x, c * v.y - sn * v.z, sn * v.y + c * v.z⟩ := by
  funext i
  fin_cases i <;>
    simp [glmRotate, hom, Matrix.mulVec, Matrix.dotProduct,
      Fin.sum_univ_four] <;> ring

theorem mulVec_glmRotateY (c sn : ℚ) (v : Vec3) :
    (glmRotate c sn ⟨0, 1, 0⟩).mulVec (hom v) =
      hom ⟨c * v.x + sn * v.z, v.y, -sn * v.x + c * v.z⟩ := by
  funext i
  fin_cases i <;>
    simp [glmRotate, hom, Matrix.mulVec, Matrix.dotProduct,
      Fin.sum_univ_four] <;> ring

theorem mulVec_glmRotateZ (c sn : ℚ) (v : Vec3) :
    (glmRotate c sn ⟨0, 0, 1⟩).mulVec (hom v) =
      hom ⟨c * v.x - sn * v.y, sn * v.x + c * v.y, v.z⟩ := by
  funext i
  fin_cases i <;>
    simp [glmRotate, hom, Matrix.mulVec, Matrix.dotProduct,
      Fin.sum_univ_four] <;> ring

theorem applyToPoint_of_mulVec_hom {M : Mat4} {v u : Vec3}
    (h : M.mulVec (hom v) = hom u) : applyToPoint M v = u := by
  unfold applyToPoint
  rw [h]
  simp [hom]

/-- Claim C1: for every scale vector, rotation angles (given through the
cosine/sine of their radian values) and position vector,
`SceneManager::SetTransformations` sets the shader's model matrix to
`translate(position) * rotateX * rotateY * rotateZ * scale`; applied to
a vertex, the scale acts first, then the Z, Y, X rotations, then the
translation. -/
theorem setTransformations_composition (cX sX cY sY cZ sZ : ℚ)
    (scaleXYZ positionXYZ v : Vec3) :
    setTransformations cX sX cY sY cZ sZ scaleXYZ positionXYZ =
      glmTranslate positionXYZ *
        glmRotate cX sX ⟨1, 0, 0⟩ *
        glmRotate cY sY ⟨0, 1, 0⟩ *
        glmRotate cZ sZ ⟨0, 0, 1⟩ *
        glmScale scaleXYZ ∧
    applyToPoint (setTransformations cX sX cY sY cZ sZ scaleXYZ positionXYZ) v =
      applyToPoint (glmTranslate positionXYZ)
        (applyToPoint (glmRotate cX sX ⟨1, 0, 0⟩)
          (applyToPoint (glmRotate cY sY ⟨0, 1, 0⟩)
            (applyToPoint (glmRotate cZ sZ ⟨0, 0, 1⟩)
              (applyToPoint (glmScale scaleXYZ) v)))) := by
  refine ⟨rfl, ?_⟩
  rw [applyToPoint_of_mulVec_hom (mulVec_glmScale scaleXYZ v),
      applyToPoint_of_mulVec_hom (mulVec_glmRotateZ cZ sZ _),
      applyToPoint_of_mulVec_hom (mulVec_glmRotateY cY sY _),
      applyToPoint_of_mulVec_hom (mulVec_glmRotateX cX sX _),
      applyToPoint_of_mulVec_hom (mulVec_glmTranslate positionXYZ _)]
  apply applyToPoint_of_mulVec_hom
  rw [setTransformations]
  rw [← Matrix.mulVec_mulVec, mulVec_glmScale,
      ← Matrix.mulVec_mulVec, mulVec_glmRotateZ,
      ← Matrix.mulVec_mulVec, mulVec_glmRotateY,
      ← Matrix.mulVec_mulVec, mulVec_glmRotateX,
      mulVec_glmTranslate]


/-- Iterate `mouse_callback` over a list of cursor-position events. -/
def runMouse (cosDeg sinDeg : ℚ → ℚ) (norm : Vec3 → Vec3)
    (st : CameraState) (evs : List (ℚ × ℚ)) : CameraState :=
  evs.foldl (fun s e => mouse_callback cosDeg sinDeg norm s e.1 e.2) st

/-- Iterate `scroll_callback` over a list of scroll y offsets. -/
def runScroll (st : CameraState) (offs : List ℚ) : CameraState :=
  offs.foldl scroll_callback st

/-- Claim C2: after any `mouse_callback` invocation, the camera front
vector is the normalized Euler-angle look direction computed from the
updated (stored) yaw and pitch angles. -/
theorem mouse_callback_front_is_euler_dir (cosDeg sinDeg : ℚ → ℚ)
    (norm : Vec3 → Vec3) (st : CameraState) (xpos ypos : ℚ) :
    (mouse_callback cosDeg sinDeg norm st xpos ypos).cameraFront =
      norm (eulerDir cosDeg sinDeg
        (mouse_callback cosDeg sinDeg norm st xpos ypos).yaw
        (mouse_callback cosDeg sinDeg norm st xpos ypos).pitch) := by
  unfold mouse_callback
  by_cases h : st.firstMouse <;> simp [h]

theorem mouse_callback_pitch_mem (cosDeg sinDeg : ℚ → ℚ)
    (norm : Vec3 → Vec3) (st : CameraState) (xpos ypos : ℚ) :
    -89 ≤ (mouse_callback cosDeg sinDeg norm st xpos ypos).pitch ∧
      (mouse_callback cosDeg sinDeg norm st xpos ypos).pitch ≤ 89 := by
  unfold mouse_callback
  by_cases h : st.firstMouse <;>
    simp [h] <;> split_ifs <;> constructor <;> linarith

/-- Claim C9: starting from the initial pitch of `0`, after every
invocation of `mouse_callback` in any event sequence the stored pitch
lies in the closed interval `[-89, 89]` degrees. -/
theorem mouse_callback_pitch_invariant (cosDeg sinDeg : ℚ → ℚ)
    (norm : Vec3 → Vec3) (evs : List (ℚ × ℚ)) (xpos ypos : ℚ) :
    initCameraState.pitch = 0 ∧
    -89 ≤ (runMouse cosDeg sinDeg norm initCameraState
        (evs ++ [(xpos, ypos)])).pitch ∧
    (runMouse cosDeg sinDeg norm initCameraState
        (evs ++ [(xpos, ypos)])).pitch ≤ 89 := by
  refine ⟨rfl, ?_, ?_⟩ <;>
  · rw [runMouse, List.foldl_append]
    first
    | exact (mouse_callback_pitch_mem cosDeg sinDeg norm _ xpos ypos).1
    | exact (mouse_callback_pitch_mem cosDeg sinDeg norm _ xpos ypos).2

theorem scroll_callback_clamped (st : CameraState) (yoffset : ℚ) :
    1 / 2 ≤ (scroll_callback st yoffset).movementSpeed ∧
    (scroll_callback st yoffset).movementSpeed ≤ 10 ∧
    1 ≤ (scroll_callback st yoffset).fov ∧
    (scroll_callback st yoffset).fov ≤ 45 := by
  exact ⟨le_min (le_max_right _ _) (by norm_num), min_le_right _ _,
    le_min (le_max_right _ _) (by norm_num), min_le_right _ _⟩

/-- Claim C10: starting from `movementSpeed = 4` and `fov = 45`, after
every invocation of `scroll_callback` in any sequence of scroll offsets
the movement speed lies in `[0.5, 10]` and the field of view lies in
`[1, 45]`. -/
theorem scroll_callback_invariant (offs : List ℚ) (yoffset : ℚ) :
    initCameraState.movementSpeed = 4 ∧ initCameraState.fov = 45 ∧
    1 / 2 ≤ (runScroll initCameraState (offs ++ [yoffset])).movementSpeed ∧
    (runScroll initCameraState (offs ++ [yoffset])).movementSpeed ≤ 10 ∧
    1 ≤ (runScroll initCameraState (offs ++ [yoffset])).fov ∧
    (runScroll initCameraState (offs ++ [yoffset])).fov ≤ 45 := by
  refine ⟨rfl, rfl, ?_, ?_, ?_, ?_⟩ <;>
  · rw [runScroll, List.foldl_append]
    have h := scroll_callback_clamped
      (List.foldl scroll_callback initCameraState offs) yoffset
    simp only [List.foldl]
    first
    | exact h.1
    | exact h.2.1
    | exact h.2.2.1
    | exact h.2.2.2


theorem processInputP_held (c : Bool) (m : ℕ) :
    runPToggle ⟨c, true⟩ (List.replicate m true) = ⟨c, true⟩ := by
  induction m with
  | zero => rfl
  | succ n ih => simpa [runPToggle, List.replicate_succ, processInputP]
      using ih

/-- Claim C3: a press of the P key toggles the projection mode exactly
once no matter how many frames the key is held (the `pKeyPressed` flag
suppresses repeats and a release frame re-arms it), and each frame sends
the orthographic projection when the toggle is in orthographic mode and
otherwise the perspective projection built from the current fov with
800/600 aspect, near 0.1 and far 100. -/
theorem pToggle_once_per_press_and_projection :
    (∀ (b : Bool) (n : ℕ),
      runPToggle ⟨b, false⟩ (List.replicate (n + 1) true) = ⟨!b, true⟩) ∧
    (∀ c : Bool, processInputP ⟨c, true⟩ true = ⟨c, true⟩) ∧
    (∀ st : PToggleState, processInputP st false = ⟨st.useOrtho, false⟩) ∧
    (∀ t : ℚ, frameProjection true t =
      glmOrtho (-10 * (800 / 600)) (10 * (800 / 600)) (-10) 10 0.1 100) ∧
    (∀ t : ℚ, frameProjection false t =
      glmPerspective t (800 / 600) 0.1 100) := by
  refine ⟨?_, fun c => rfl, fun st => rfl, fun t => rfl, fun t => rfl⟩
  intro b n
  have h : runPToggle ⟨b, false⟩ (List.replicate (n + 1) true) =
      runPToggle ⟨!b, true⟩ (List.replicate n true) := by
    simp [runPToggle, List.replicate_succ, processInputP]
  rw [h, processInputP_held]

/-- Claim C6: in a frame where only the A key (respectively only the D
key) of the movement keys is pressed, `processInput` moves the camera
position by minus (respectively plus) the normalized cross product of
the front and up vectors times `movementSpeed * deltaTime`, and no
invocation of the movement code ever changes the camera front or up
vectors. -/
theorem processInput_strafe (norm : Vec3 → Vec3) (deltaTime : ℚ)
    (st : CameraState) :
    (processInputMove norm ⟨false, false, true, false, false, false⟩
        deltaTime st).cameraPos =
      st.cameraPos.sub ((norm (st.cameraFront.cross st.cameraUp)).smul
        (st.movementSpeed * deltaTime)) ∧
    (processInputMove norm ⟨false, false, false, true, false, false⟩
        deltaTime st).cameraPos =
      st.cameraPos.add ((norm (st.cameraFront.cross st.cameraUp)).smul
        (st.movementSpeed * deltaTime)) ∧
    (∀ keys : Keys,
      (processInputMove norm keys deltaTime st).cameraFront =
          st.cameraFront ∧
        (processInputMove norm keys deltaTime st).cameraUp = st.cameraUp) :=
  ⟨rfl, rfl, fun _ => ⟨rfl, rfl⟩⟩

/-- Claim C7: `RenderScene` is pure with respect to the `SceneManager`
state, so two consecutive invocations from any fixed state issue the
identical operation trace. -/
theorem renderScene_pure (st : SceneState) :
    (renderScene st).1 = st ∧
    (renderScene (renderScene st).1).2 = (renderScene st).2 :=
  ⟨rfl, rfl⟩


/-- The concrete scene built by `main`: `PrepareScene` run on a fresh
`SceneManager` with all three texture images decoding successfully as
3-channel JPEGs. -/
def demoScene : SceneState :=
  prepareScene (some ⟨512, 512, 3⟩) (some ⟨512, 512, 3⟩)
    (some ⟨512, 512, 3⟩) sceneManagerInit

theorem createGLTexture_loadedMeshes (st : SceneState) (d : Option Image)
    (tag : String) :
    (createGLTexture st d tag).2.loadedMeshes = st.loadedMeshes := by
  cases d with
  | none => rfl
  | some img =>
    by_cases h : img.channels = 3 ∨ img.channels = 4 <;>
      simp [createGLTexture, h]

/-- Claim C4 fails on the code: `RenderScene` issues seven
`DrawConeMesh` calls (one center cone plus three rows of two), not the
six the claim states. -/
theorem renderScene_cone_count_not_six :
    countDraws .cone (renderScene demoScene).2 = 7 ∧
      countDraws .cone (renderScene demoScene).2 ≠ 6 := by
  constructor
  · rfl
  · decide

/-- Claim C4 as amended (seven cones instead of six): every call to
`RenderScene` draws, in order, one floor plane with the "floor" texture
at UV scale 4x4, seven cones and one torus with the "cone" texture, and
one box with the "box" texture — and `PrepareScene` loads each of the
four mesh types exactly once. -/
theorem renderScene_scene_contents (st : SceneState) :
    drawsAnnotated (renderScene st).2 none none =
      [(.plane, some ("floor", findTextureSlot st "floor"), some (4, 4)),
       (.cone, some ("cone", findTextureSlot st "cone"), some (4, 4)),
       (.torus, some ("cone", findTextureSlot st "cone"), some (4, 4)),
       (.cone, some ("cone", findTextureSlot st "cone"), some (4, 4)),
       (.cone, some ("cone", findTextureSlot st "cone"), some (4, 4)),
       (.cone, some ("cone", findTextureSlot st "cone"), some (4, 4)),
       (.cone, some ("cone", findTextureSlot st "cone"), some (4, 4)),
       (.cone, some ("cone", findTextureSlot st "cone"), some (4, 4)),
       (.cone, some ("cone", findTextureSlot st "cone"), some (4, 4)),
       (.box, some ("box", findTextureSlot st "box"), some (4, 4))] ∧
    countDraws .plane (renderScene st).2 = 1 ∧
    countDraws .cone (renderScene st).2 = 7 ∧
    countDraws .torus (renderScene st).2 = 1 ∧
    countDraws .box (renderScene st).2 = 1 ∧
    ∀ imgFloor imgCone imgBox : Option Image,
      (prepareScene imgFloor imgCone imgBox sceneManagerInit).loadedMeshes =
        [.plane, .cone, .torus, .box] := by
  refine ⟨rfl, rfl, rfl, rfl, rfl, ?_⟩
  intro imgFloor imgCone imgBox
  unfold prepareScene
  rw [createGLTexture_loadedMeshes, createGLTexture_loadedMeshes,
    createGLTexture_loadedMeshes]
  rfl

/-- Claim C5 fails on the code: deleting the `SceneManager` at program
exit does not free the GL textures — the destructor never calls
`DestroyGLTextures`, so it issues no `glDeleteTextures` call and the
loaded-texture count stays at 3 rather than returning to zero. -/
theorem destructor_does_not_free_textures :
    (sceneManagerDestructor demoScene).2 = [] ∧
    (sceneManagerDestructor demoScene).1.textureIDs.length = 3 ∧
    (sceneManagerDestructor demoScene).1.textureIDs.length ≠ 0 := by
  refine ⟨rfl, rfl, ?_⟩
  decide

/-- Claim C5 as amended: the shutdown path (the `SceneManager`
destructor) leaves the loaded-texture registry untouched and deletes no
GL texture; the unused `DestroyGLTextures` method is the one that, when
called, deletes every registered texture and returns the loaded-texture
count to zero. -/
theorem destructor_vs_destroyGLTextures (st : SceneState) :
    (sceneManagerDestructor st).1.textureIDs = st.textureIDs ∧
    (sceneManagerDestructor st).2 = [] ∧
    (destroyGLTextures st).1.textureIDs.length = 0 ∧
    (destroyGLTextures st).2 = st.textureIDs.map (·.id) :=
  ⟨rfl, rfl, rfl, rfl⟩

/-- Claim C8: `CreateGLTexture` returns `false` and leaves the texture
registry unchanged when the image fails to decode or has a channel
count other than 3 or 4; on success it returns `true`, appends the new
`(ID, tag)` record, and grows the loaded-texture count by exactly one. -/
theorem createGLTexture_spec (st : SceneState) (tag : String)
    (d : Option Image) :
    match d with
    | none =>
        createGLTexture st d tag = (false, st)
    | some img =>
        if img.channels = 3 ∨ img.channels = 4 then
          (createGLTexture st d tag).1 = true ∧
          (createGLTexture st d tag).2.textureIDs =
            st.textureIDs ++ [⟨st.nextTextureID, tag⟩] ∧
          (createGLTexture st d tag).2.textureIDs.length =
            st.textureIDs.length + 1
        else
          (createGLTexture st d tag).1 = false ∧
          (createGLTexture st d tag).2.textureIDs = st.textureIDs := by
  cases d with
  | none => rfl
  | some img =>
    by_cases h : img.channels = 3 ∨ img.channels = 4 <;>
      simp [createGLTexture, h]

